import Mathlib

/-!
Formal model of the AI-provider orchestration core of the intern-progress-analyzer
backend (`backend/utils/ai_providers/`): the report data formatter and performance
scorer of `base_provider.py`, the response parser and report pipeline of
`ollama_provider.py` (with the remote variants of `openai_provider.py` and
`claude_provider.py`), and the provider manager of `ai_manager.py` (fallback chain,
cost estimation).  Python strings are modelled over `List Char` with executable
primitives mirroring Python `str` semantics (`split`, `strip`, `lower`, substring
containment), Python floats as exact rationals `ℚ`, Python dictionaries as Lean
structures with `Option` fields for keys that may be absent, and raised exceptions
as an explicit `PyResult` sum absorbed where the source has `try/except`.
-/

namespace AIProviders

/-! ### Python string primitives over `List Char` -/

/-- ASCII whitespace recognized by Python `str.strip()` / `str.split()`. -/
def pyIsSpace (c : Char) : Bool :=
  c = ' ' || c = '\t' || c = '\n' || c = '\r' || c = '\x0B' || c = '\x0C'

/-- Drop leading whitespace characters. -/
def dropLeadingSpace : List Char → List Char
  | [] => []
  | c :: cs => if pyIsSpace c then dropLeadingSpace cs else c :: cs

/-- Python `str.strip()`: remove leading and trailing whitespace. -/
def pyStripChars (l : List Char) : List Char :=
  (dropLeadingSpace ((dropLeadingSpace l).reverse)).reverse

/-- Python `str.lower()` (ASCII case folding, as in `Char.toLower`). -/
def pyLowerChars (l : List Char) : List Char :=
  l.map Char.toLower

/-- Whether `pat` occurs at the head of `l` (Python `str.startswith`). -/
def headMatches : List Char → List Char → Bool
  | [], _ => true
  | _ :: _, [] => false
  | a :: as, b :: bs => a == b && headMatches as bs

/-- Whether `pat` occurs as a contiguous substring of `l` (Python `in` on strings). -/
def subOccurs (pat : List Char) : List Char → Bool
  | [] => headMatches pat []
  | c :: cs => headMatches pat (c :: cs) || subOccurs pat cs

/-- Fuel-driven worker for `pySplitOnChars`; the fuel is the length of the input,
which is consumed at one character per step, so it never runs out. -/
def pySplitGo (sep : List Char) : Nat → List Char → List Char → List (List Char)
  | _, [], acc => [acc.reverse]
  | 0, rest, acc => [acc.reverse ++ rest]
  | fuel + 1, c :: cs, acc =>
    if headMatches sep (c :: cs) then
      acc.reverse :: pySplitGo sep fuel (List.drop (sep.length - 1) cs) []
    else
      pySplitGo sep fuel cs (c :: acc)

/-- Python `str.split(sep)` for a non-empty separator `sep`: splits at every
occurrence of `sep`, keeping empty pieces; always returns at least one piece. -/
def pySplitOnChars (l sep : List Char) : List (List Char) :=
  pySplitGo sep l.length l []

/-- Worker for `pyWordsChars`, accumulating the current word reversed. -/
def pyWordsGo : List Char → List Char → List (List Char)
  | [], cur => if cur.isEmpty then [] else [cur.reverse]
  | c :: cs, cur =>
    if pyIsSpace c then
      if cur.isEmpty then pyWordsGo cs [] else cur.reverse :: pyWordsGo cs []
    else
      pyWordsGo cs (c :: cur)

/-- Python `str.split()` with no argument: split on whitespace runs, dropping
empty pieces. -/
def pyWordsChars (l : List Char) : List (List Char) :=
  pyWordsGo l []

/-- Join pieces with a separator (Python `sep.join(parts)`). -/
def joinSep (sep : List Char) : List (List Char) → List Char
  | [] => []
  | [x] => x
  | x :: xs => x ++ sep ++ joinSep sep xs

/-- Python `str.isdigit()` (ASCII digits): non-empty and all digits. -/
def pyIsDigitStr (l : List Char) : Bool :=
  !l.isEmpty && l.all Char.isDigit

/-- Number of whitespace-separated words (Python `len(s.split())`). -/
def pyWordCount (s : String) : Nat :=
  (pyWordsChars s.data).length

/-- Substring containment lifted to `String` (Python `sub in s`). -/
def strHasSub (s sub : String) : Bool :=
  subOccurs sub.data s.data

/-! ### Python `round` and `int` on exact rationals

Python floats are modelled as exact rationals.  `round(x, n)` uses round-half-to-even;
on the tie-free values arising in this development this agrees with CPython float
rounding. -/

/-- Round-half-to-even to the nearest integer. -/
def roundHalfEven (q : ℚ) : ℤ :=
  let f := ⌊q⌋
  let frac := q - f
  if frac < 1 / 2 then f
  else if 1 / 2 < frac then f + 1
  else if f % 2 = 0 then f else f + 1

/-- Python `round(q, 1)`. -/
def pyRound1 (q : ℚ) : ℚ :=
  (roundHalfEven (q * 10) : ℚ) / 10

/-- Python `round(q, 4)`. -/
def pyRound4 (q : ℚ) : ℚ :=
  (roundHalfEven (q * 10000) : ℚ) / 10000

/-- Python `int(q)`: truncation toward zero. -/
def pyIntTrunc (q : ℚ) : ℤ :=
  if 0 ≤ q then ⌊q⌋ else ⌈q⌉

/-! ### The intern dataset (`intern_data` dictionary) -/

/-- One logbook entry, as consumed by `format_intern_data_for_ai` and
`_calculate_performance_scores`.  The two ratings model dictionary entries that
may be absent (`none`); Python reads them with truthiness tests
(`if entry.get('mood_rating'):`), so a stored `0` behaves like an absent key. -/
structure LogEntry where
  date : String
  status : String
  task_stack : String
  todays_work : String
  challenges : String
  tomorrow_plan : String
  mood_rating : Option Nat := none
  productivity_self_rating : Option Nat := none
deriving DecidableEq

/-- The `intern_info` sub-dictionary: keys `name` and `slt_id` are read with
plain indexing, so they are required fields. -/
structure InternInfo where
  name : String
  slt_id : String
deriving DecidableEq

/-- One value of the `interns_data` dictionary. -/
structure InternRecord where
  intern_info : InternInfo
  logbook_entries : List LogEntry
deriving DecidableEq

/-- The `project_info` sub-dictionary, read with `.get(..., default)`. -/
structure ProjectInfo where
  name : Option String := none
  description : Option String := none
deriving DecidableEq

/-- The `intern_data` dictionary.  `interns_data` is an insertion-ordered
dictionary, modelled as an association list keyed by intern id. -/
structure InternData where
  project_info : Option ProjectInfo := none
  interns_data : Option (List (String × InternRecord)) := none
  intern_name : Option String := none
deriving DecidableEq

/-- Python truthiness filter on an optional rating: absent or `0` is falsy. -/
def optTruthyNat : Option Nat → Option Nat
  | some n => if n = 0 then none else some n
  | none => none

/-! ### `BaseAIProvider.format_intern_data_for_ai` -/

/-- Python `entries[-7:]`: the last (at most) 7 elements in list order. -/
def lastSeven {α : Type} (l : List α) : List α :=
  l.drop (l.length - 7)

/-- The labeled lines printed for one logbook entry inside the per-intern loop of
`format_intern_data_for_ai`, ending with the blank line `prompt_parts.append("")`. -/
def formatLogEntry (e : LogEntry) : List String :=
  [("Date: " ++ e.date),
   ("Status: " ++ e.status),
   ("Task Stack: " ++ e.task_stack),
   ("Work Done: " ++ e.todays_work),
   ("Challenges: " ++ e.challenges),
   ("Tomorrow Plan: " ++ e.tomorrow_plan)]
  ++ (match optTruthyNat e.mood_rating with
      | some m => [("Mood: " ++ toString m ++ "/5")]
      | none => [])
  ++ (match optTruthyNat e.productivity_self_rating with
      | some p => [("Self-Productivity Rating: " ++ toString p ++ "/5")]
      | none => [])
  ++ [""]

/-- The per-intern block of `format_intern_data_for_ai`: header line, 30-dash
rule, then the labeled lines of the last seven logbook entries. -/
def formatInternBlock (kv : String × InternRecord) : List String :=
  ("\nINTERN: " ++ kv.2.intern_info.name ++ " (" ++ kv.2.intern_info.slt_id ++ ")")
  :: String.mk (List.replicate 30 '-')
  :: (lastSeven kv.2.logbook_entries).flatMap formatLogEntry

/-- `BaseAIProvider.format_intern_data_for_ai`: project header (when the
`project_info` key is present), then one block per intern (when `interns_data`
is present), joined with newlines. -/
def format_intern_data_for_ai (d : InternData) : String :=
  let prompt_parts :=
    (match d.project_info with
     | some project =>
       [("PROJECT: " ++ project.name.getD "Unknown"),
        ("DESCRIPTION: " ++ project.description.getD "No description"),
        String.mk (List.replicate 50 '=')]
     | none => [])
    ++ (match d.interns_data with
        | some recs => recs.flatMap formatInternBlock
        | none => [])
  String.intercalate "\n" prompt_parts

/-! ### `BaseAIProvider._calculate_performance_scores` -/

/-- The four performance metrics. -/
structure PerformanceScores where
  overall_productivity : ℚ
  consistency : ℚ
  engagement : ℚ
  technical_progress : ℚ
deriving DecidableEq

/-- The list-comprehension `[e.get(k, 3) for e in entries if e.get(k)]`: the
truthiness filter keeps exactly the present, non-zero ratings (the default `3`
is never used, since the filter guarantees the key is present and truthy). -/
def truthyRatings (f : LogEntry → Option Nat) (entries : List LogEntry) : List Nat :=
  entries.filterMap (fun e => optTruthyNat (f e))

/-- `sum(ratings) / len(ratings)` as an exact rational. -/
def ratingMean (l : List Nat) : ℚ :=
  (l.sum : ℚ) / (l.length : ℚ)

/-- The body of the per-intern loop of `_calculate_performance_scores`,
accumulating `(productivity_sum, consistency_sum, engagement_sum)`.  An intern
with an empty `logbook_entries` list is skipped entirely (`if entries:`). -/
def internSums (acc : ℚ × ℚ × ℚ) (rec : InternRecord) : ℚ × ℚ × ℚ :=
  if rec.logbook_entries.isEmpty then acc
  else
    let prods := truthyRatings (fun e => e.productivity_self_rating) rec.logbook_entries
    let moods := truthyRatings (fun e => e.mood_rating) rec.logbook_entries
    ((if prods.isEmpty then acc.1 else acc.1 + ratingMean prods),
     acc.2.1 + min ((rec.logbook_entries.length : ℚ) / 7 * 5) 5,
     (if moods.isEmpty then acc.2.2 else acc.2.2 + ratingMean moods))

/-- `BaseAIProvider._calculate_performance_scores`: all scores are `0.0` when the
`interns_data` key is absent or the dictionary is empty; otherwise each sum is
divided by the number of interns and rounded to one decimal, and
`technical_progress` is the rounded mean of the two already-rounded scores. -/
def _calculate_performance_scores (d : InternData) : PerformanceScores :=
  match d.interns_data with
  | none => ⟨0, 0, 0, 0⟩
  | some recs =>
    if recs.length = 0 then ⟨0, 0, 0, 0⟩
    else
      let sums := recs.foldl (fun acc kv => internSums acc kv.2) (0, 0, 0)
      let op := pyRound1 (sums.1 / (recs.length : ℚ))
      let co := pyRound1 (sums.2.1 / (recs.length : ℚ))
      let en := pyRound1 (sums.2.2 / (recs.length : ℚ))
      ⟨op, co, en, pyRound1 ((op + co) / 2)⟩

/-! ### `OllamaProvider._extract_list_items` and `_parse_ollama_response` -/

/-- The structured content dictionary built by `_parse_ollama_response`. -/
structure ParsedContent where
  summary : String
  strengths : List String
  weaknesses : List String
  recommendations : List String
  performance_score : ℚ
  raw_response : String
deriving DecidableEq

/-- The bullet-stripping loop of `_extract_list_items`: for the first matching
glyph among `•`, `-`, `*`, `→` at the head of the line, drop one character and
strip; otherwise keep the line. -/
def bulletStrip (line : List Char) : List Char :=
  if headMatches ['•'] line then pyStripChars (line.drop 1)
  else if headMatches ['-'] line then pyStripChars (line.drop 1)
  else if headMatches ['*'] line then pyStripChars (line.drop 1)
  else if headMatches ['→'] line then pyStripChars (line.drop 1)
  else line

/-- The numbered-list handling of `_extract_list_items`: when the original line
contains `". "` and the part before the first `". "` is all digits, the cleaned
line is rebuilt from the remaining parts (note: from `line`, discarding any
bullet-stripping already performed); otherwise the previous cleaned line stands. -/
def numberedStrip (line cleaned : List Char) : List Char :=
  match pySplitOnChars line ['.', ' '] with
  | [] => cleaned
  | p0 :: rest =>
    if rest.length > 0 && pyIsDigitStr p0 then joinSep ['.', ' '] rest
    else cleaned

/-- The skip markers of `_extract_list_items`: a cleaned line whose lowercase form
contains one of these is discarded. -/
def skipMarkers : List (List Char) :=
  ["summary".data, "strengths:".data, "weaknesses:".data, "recommendations:".data]

/-- `OllamaProvider._extract_list_items`: split the section on newlines, strip
each line, drop empties, strip a bullet glyph or numeric list prefix, and keep
the cleaned lines longer than 10 characters that contain no skip marker. -/
def _extract_list_items (text : String) : List String :=
  (pySplitOnChars text.data ['\n']).foldl
    (fun items line0 =>
      let line := pyStripChars line0
      if line.isEmpty then items
      else
        let cleaned := numberedStrip line (bulletStrip line)
        if cleaned.length > 10 &&
            !(skipMarkers.any (fun p => subOccurs p (pyLowerChars cleaned))) then
          items ++ [String.mk cleaned]
        else items)
    []

/-- Keyword families used by the section classifier of `_parse_ollama_response`. -/
def kwSummary : List (List Char) :=
  ["summary".data, "overview".data, "general".data]

/-- Keywords classifying a section as strengths. -/
def kwStrengths : List (List Char) :=
  ["strength".data, "positive".data, "good".data]

/-- Keywords classifying a section as weaknesses. -/
def kwWeaknesses : List (List Char) :=
  ["weakness".data, "improvement".data, "challenge".data]

/-- Keywords classifying a section as recommendations. -/
def kwRecommendations : List (List Char) :=
  ["recommend".data, "suggest".data, "advice".data]

/-- The `current_section` marker of the section loop. -/
inductive SectKind where
  | summary
  | strengths
  | weaknesses
  | recommendations
deriving DecidableEq

/-- One iteration of the section loop of `_parse_ollama_response`: strip the
section, skip it when empty, classify it by the first matching keyword family
(replacing the summary, or extending a list by the extracted items), and
otherwise append it to the summary when the current section is the summary, or
make it the summary when no summary exists yet. -/
def ollamaSectionStep (st : ParsedContent × Option SectKind) (sec0 : String) :
    ParsedContent × Option SectKind :=
  let secChars := pyStripChars sec0.data
  if secChars.isEmpty then st
  else
    let sec := String.mk secChars
    let low := pyLowerChars secChars
    let content := st.1
    if kwSummary.any (fun k => subOccurs k low) then
      ({ content with summary := sec }, some SectKind.summary)
    else if kwStrengths.any (fun k => subOccurs k low) then
      ({ content with strengths := content.strengths ++ _extract_list_items sec },
       some SectKind.strengths)
    else if kwWeaknesses.any (fun k => subOccurs k low) then
      ({ content with weaknesses := content.weaknesses ++ _extract_list_items sec },
       some SectKind.weaknesses)
    else if kwRecommendations.any (fun k => subOccurs k low) then
      ({ content with recommendations := content.recommendations ++ _extract_list_items sec },
       some SectKind.recommendations)
    else if st.2 = some SectKind.summary then
      ({ content with summary := content.summary ++ "\n" ++ sec }, st.2)
    else if content.summary = "" then
      ({ content with summary := sec }, st.2)
    else st

/-- The `try`-block of `_parse_ollama_response` with its final, faulty statement
removed: split the raw response on blank lines, run the section loop, and apply
the 500-character summary default.  In the source this block never completes:
after the loop, `content['performance_score'] = self.calculate_performance_score(content)`
raises `AttributeError` — no method of that name exists on `OllamaProvider` or
`BaseAIProvider` (the base class only defines `_calculate_performance_scores`,
which takes the dataset, not the parsed content) — so control always jumps to the
`except` branch.  This definition captures the classification behavior the block
was written to produce, for comparison with the specified behavior. -/
def ollamaTryBlockParse (response : String) : ParsedContent :=
  let c0 : ParsedContent :=
    { summary := "", strengths := [], weaknesses := [], recommendations := [],
      performance_score := 0, raw_response := response }
  let st := (pySplitOnChars response.data ['\n', '\n']).foldl
    (fun st sec => ollamaSectionStep st (String.mk sec)) (c0, none)
  if st.1.summary = "" then
    { st.1 with summary :=
        if response.data.length > 500 then String.mk (response.data.take 500) ++ "..."
        else response }
  else st.1

/-- `OllamaProvider._parse_ollama_response` as actually executed: the `try`-block
always raises `AttributeError` at `self.calculate_performance_score(content)`
(see `ollamaTryBlockParse`), so every call returns the fixed fallback structure
of the `except` branch: a (possibly truncated) raw-text summary, three canned
placeholder list items, and the default score 75. -/
def _parse_ollama_response (response : String) (_report_type : String) : ParsedContent :=
  { summary :=
      if response.data.length > 1000 then String.mk (response.data.take 1000) ++ "..."
      else response,
    strengths := ["Analysis completed successfully"],
    weaknesses := ["Further analysis may be needed"],
    recommendations := ["Continue current progress"],
    performance_score := 75,
    raw_response := response }

/-! ### Provider call outcomes and `generate_report` pipelines

A Python call either returns a value or raises; `PyResult` makes this explicit.
Each provider is modelled, for the duration of one manager request, by the fixed
outcomes of its `test_connection()` and `generate_report(...)` calls (the manager
invokes each method of each provider at most once per request). -/

/-- Outcome of a Python call: a returned value or a raised exception message. -/
inductive PyResult (α : Type) where
  | ok (val : α)
  | exn (msg : String)
deriving DecidableEq

/-- The report dictionary flowing through `AIManager.generate_report`: the keys a
provider may set (`success`, `error`, `provider`, parsed content) together with
the metadata keys the manager writes (`provider_used`, `fallback_used`,
`original_provider`, `original_error`, `fallback_attempted`,
`available_providers`).  A key absent from the Python dictionary is `none`;
a fresh provider report carries `success := true` only when the provider put no
explicit `success: False` in it. -/
structure Rep where
  success : Bool := true
  error : Option String := none
  provider : Option String := none
  summary : Option String := none
  performance_score : Option ℚ := none
  provider_used : Option String := none
  fallback_used : Option Bool := none
  original_provider : Option String := none
  original_error : Option String := none
  fallback_attempted : Option Bool := none
  available_providers : Option (List String) := none
deriving DecidableEq

/-- Behavior of one registered provider during one manager request. -/
structure ProviderBehavior where
  testConn : PyResult Bool
  genReport : PyResult Rep
deriving DecidableEq

/-- Call-count instrumentation: one event per provider method invocation made by
the manager. -/
inductive CallEv where
  | test (provider : String)
  | gen (provider : String)
deriving DecidableEq

/-- The provider a call event was made on. -/
def CallEv.providerOf : CallEv → String
  | .test p => p
  | .gen p => p

/-- `AIManager` state: the provider registry (an insertion-ordered dictionary)
and the fixed fallback order, as set in `__init__`. -/
structure AIManager where
  providers : List (String × ProviderBehavior)
  default_provider : String := "ollama"
  fallback_order : List String := ["ollama", "gpt4", "claude"]

/-- `list(self.providers.keys())`. -/
def registryNames (m : AIManager) : List String :=
  m.providers.map Prod.fst

/-- The primary attempt of `AIManager.generate_report` for a registered provider:
test the connection (a `False` result raises `"<name> is not available"` inside
the `try`), then call `generate_report` and tag the returned dictionary with
`provider_used` and `fallback_used = False`.  Returns the outcome of the `try`
block together with the provider calls made. -/
def primaryAttempt (pb : ProviderBehavior) (name : String) : PyResult Rep × List CallEv :=
  match pb.testConn with
  | .exn e => (.exn e, [.test name])
  | .ok false => (.exn (name ++ " is not available"), [.test name])
  | .ok true =>
    match pb.genReport with
    | .exn e => (.exn e, [.test name, .gen name])
    | .ok rep =>
      (.ok { rep with provider_used := some name, fallback_used := some false },
       [.test name, .gen name])

/-- The metadata written onto a fallback winner inside `_try_fallback_providers`. -/
def tagFallback (rep : Rep) (c failed orig : String) : Rep :=
  { rep with provider_used := some c, fallback_used := some true,
             original_provider := some failed, original_error := some orig }

/-- `fallback_providers = [p for p in self.fallback_order if p != failed_provider
and p in self.providers]`. -/
def fallbackCandidates (m : AIManager) (failed : String) : List String :=
  m.fallback_order.filter (fun p => p != failed && (m.providers.lookup p).isSome)

/-- The loop of `_try_fallback_providers` over the candidate list: a candidate
whose `test_connection()` raises or returns `False`, or whose `generate_report`
raises, is skipped (`except: continue`); the first candidate whose
`generate_report` returns is tagged and wins.  Returns the winning report, if
any, with the provider calls made.  (The `none` lookup case cannot arise: the
candidate list is filtered to registered names.) -/
def runCandidates (m : AIManager) (failed orig : String) : List String → Option Rep × List CallEv
  | [] => (none, [])
  | c :: rest =>
    match m.providers.lookup c with
    | none => runCandidates m failed orig rest
    | some pb =>
      match pb.testConn with
      | .exn _ =>
        ((runCandidates m failed orig rest).1,
         .test c :: (runCandidates m failed orig rest).2)
      | .ok false =>
        ((runCandidates m failed orig rest).1,
         .test c :: (runCandidates m failed orig rest).2)
      | .ok true =>
        match pb.genReport with
        | .exn _ =>
          ((runCandidates m failed orig rest).1,
           .test c :: .gen c :: (runCandidates m failed orig rest).2)
        | .ok rep => (some (tagFallback rep c failed orig), [.test c, .gen c])

/-- The aggregate failure dictionary returned when every fallback candidate
fails. -/
def allFailedRep (m : AIManager) (failed orig : String) : Rep :=
  { success := false,
    error := some ("All AI providers failed. Original error: " ++ orig),
    provider_used := some failed,
    fallback_attempted := some true,
    available_providers := some (registryNames m) }

/-- `AIManager._try_fallback_providers`, instrumented with the provider calls
made. -/
def tryFallbackProvidersT (m : AIManager) (failed orig : String) : Rep × List CallEv :=
  match (runCandidates m failed orig (fallbackCandidates m failed)).1 with
  | some rep => (rep, (runCandidates m failed orig (fallbackCandidates m failed)).2)
  | none =>
    (allFailedRep m failed orig,
     (runCandidates m failed orig (fallbackCandidates m failed)).2)

/-- `AIManager.generate_report`, instrumented with the provider calls made.  For
a registered name: run the primary attempt; on an exception, either enter the
fallback chain (`use_fallback`) or return the immediate failure dictionary.  For
an unregistered name: build the not-found error, then likewise.  (The error
message in the source wraps the name in single quotes, omitted here.) -/
def generate_reportT (m : AIManager) (name : String) (use_fallback : Bool) :
    Rep × List CallEv :=
  match m.providers.lookup name with
  | some pb =>
    match primaryAttempt pb name with
    | (.ok rep, evs) => (rep, evs)
    | (.exn e, evs) =>
      if use_fallback then
        (( tryFallbackProvidersT m name e).1, evs ++ (tryFallbackProvidersT m name e).2)
      else
        ({ success := false,
           error := some ("Failed to generate report with " ++ name ++ ": " ++ e),
           provider_used := some name }, evs)
  | none =>
    let e := "Provider " ++ name ++ " not found"
    if use_fallback then tryFallbackProvidersT m name e
    else
      ({ success := false, error := some e,
         available_providers := some (registryNames m) }, [])

/-- `AIManager.generate_report`: the returned dictionary. -/
def generate_report (m : AIManager) (name : String) (use_fallback : Bool) : Rep :=
  (generate_reportT m name use_fallback).1

/-- The failure message of the primary attempt, when it fails: the not-found
message for unregistered names, otherwise the exception absorbed by the
`except` clause of `generate_report`.  `none` means the primary attempt
returned a report. -/
def primaryError (m : AIManager) (name : String) : Option String :=
  match m.providers.lookup name with
  | some pb =>
    match primaryAttempt pb name with
    | (.ok _, _) => none
    | (.exn e, _) => some e
  | none => some ("Provider " ++ name ++ " not found")

/-! ### The concrete provider pipelines

`OllamaProvider.generate_report` (and its OpenAI/Claude counterparts) wrap their
whole body in `try/except` and so never raise.  The network is abstracted by an
environment: the `test_connection()` result (with the `last_error` it leaves
behind) and the text returned by the raw API call (`None` on transport failure;
the constructed prompt is pure and only feeds that call).  When the API returns
non-empty text, the response is parsed (`_parse_ollama_response` returns without
raising) and passed to `create_report_structure(intern_data=..., report_type=...,
ai_content=..., provider=...)` — but `BaseAIProvider.create_report_structure`
has the signature `(self, ai_response, intern_data)`, so that call raises
`TypeError: unexpected keyword argument`, and the `except` branch returns the
provider error dictionary.  Hence the pipeline can only produce `success: False`
dictionaries. -/

/-- Network environment of one provider `generate_report` call. -/
structure ProviderEnv where
  connOk : Bool
  lastError : String
  apiResponse : Option String
deriving DecidableEq

/-- The `TypeError` message raised by the miscalled `create_report_structure`
(Python quotes the argument name; quotes omitted). -/
def createReportStructureTypeError : String :=
  "create_report_structure() got an unexpected keyword argument report_type"

/-- `OllamaProvider.generate_report` under environment `env` (see the section
comment for why the success path is unreachable). -/
def ollama_generate_report (env : ProviderEnv) (_d : InternData) (_rt : String) : Rep :=
  if env.connOk = false then
    { success := false, error := some ("OLLAMA not available: " ++ env.lastError),
      provider := some "ollama" }
  else
    match env.apiResponse with
    | none =>
      { success := false, error := some "Failed to generate report with OLLAMA",
        provider := some "ollama" }
    | some resp =>
      if resp = "" then
        { success := false, error := some "Failed to generate report with OLLAMA",
          provider := some "ollama" }
      else
        { success := false,
          error := some ("OLLAMA error: " ++ createReportStructureTypeError),
          provider := some "ollama" }

/-- `OpenAIProvider.generate_report` under environment `env`; same shape as the
OLLAMA pipeline (the parsed content is likewise discarded by the `TypeError`). -/
def openai_generate_report (env : ProviderEnv) (_d : InternData) (_rt : String) : Rep :=
  if env.connOk = false then
    { success := false, error := some ("OpenAI not available: " ++ env.lastError),
      provider := some "openai" }
  else
    match env.apiResponse with
    | none =>
      { success := false, error := some "Failed to generate report with OpenAI",
        provider := some "openai" }
    | some resp =>
      if resp = "" then
        { success := false, error := some "Failed to generate report with OpenAI",
          provider := some "openai" }
      else
        { success := false,
          error := some ("OpenAI error: " ++ createReportStructureTypeError),
          provider := some "openai" }

/-- `ClaudeProvider.generate_report` under environment `env`; same shape as the
OLLAMA pipeline. -/
def claude_generate_report (env : ProviderEnv) (_d : InternData) (_rt : String) : Rep :=
  if env.connOk = false then
    { success := false, error := some ("Claude not available: " ++ env.lastError),
      provider := some "claude" }
  else
    match env.apiResponse with
    | none =>
      { success := false, error := some "Failed to generate report with Claude",
        provider := some "claude" }
    | some resp =>
      if resp = "" then
        { success := false, error := some "Failed to generate report with Claude",
          provider := some "claude" }
      else
        { success := false,
          error := some ("Claude error: " ++ createReportStructureTypeError),
          provider := some "claude" }

/-- Behavior of a concrete provider during one request: its `test_connection` is
total (every exception is caught internally and turned into `False`), and its
`generate_report` is total (whole body wrapped in `try/except`). -/
def providerBehaviorOf (env : ProviderEnv) (gen : ProviderEnv → InternData → String → Rep)
    (d : InternData) (rt : String) : ProviderBehavior :=
  { testConn := .ok env.connOk, genReport := .ok (gen env d rt) }

/-- The manager as built by `AIManager.__init__`: the three concrete providers
registered under their fixed names, in registration order, with the fixed
fallback order and default provider. -/
def realManager (ollamaEnv gptEnv claudeEnv : ProviderEnv) (d : InternData)
    (rt : String) : AIManager :=
  { providers :=
      [("ollama", providerBehaviorOf ollamaEnv ollama_generate_report d rt),
       ("gpt4", providerBehaviorOf gptEnv openai_generate_report d rt),
       ("claude", providerBehaviorOf claudeEnv claude_generate_report d rt)] }

/-! ### `AIManager.estimate_report_cost` -/

/-- The cost-estimate dictionary. -/
structure CostEstimate where
  provider : String
  estimated_input_tokens : ℤ
  estimated_output_tokens : ℤ
  total_tokens : ℤ
  estimated_cost_usd : ℚ
  is_free : Bool
deriving DecidableEq

/-- The static `cost_per_1k_tokens` table; unknown providers price at `0.0`
(`.get(provider_name, 0.0)`). -/
def cost_per_1k_tokens (name : String) : ℚ :=
  if name = "ollama" then 0
  else if name = "gpt4" then 3 / 100
  else if name = "claude" then 8 / 1000
  else 0

/-- `AIManager.estimate_report_cost`: unknown providers yield the error
dictionary; otherwise the dataset is formatted, input tokens are approximated as
`word count * 1.3`, output tokens fixed at `500`, and the cost is
`total_tokens / 1000` times the static per-provider price (every step of the
`try` block is pure, so its `except` clause is dead). -/
def estimate_report_cost (m : AIManager) (name : String) (d : InternData) :
    Except String CostEstimate :=
  if (m.providers.lookup name).isSome then
    let formatted_data := format_intern_data_for_ai d
    let estimated_input_tokens : ℚ := (pyWordCount formatted_data : ℚ) * (13 / 10)
    let estimated_output_tokens : ℚ := 500
    let total_tokens := estimated_input_tokens + estimated_output_tokens
    let cost := total_tokens / 1000 * cost_per_1k_tokens name
    .ok { provider := name,
          estimated_input_tokens := pyIntTrunc estimated_input_tokens,
          estimated_output_tokens := pyIntTrunc estimated_output_tokens,
          total_tokens := pyIntTrunc total_tokens,
          estimated_cost_usd := pyRound4 cost,
          is_free := decide (cost = 0) }
  else
    Except.error ("Provider " ++ name ++ " not found")

/-! ### Derived views of the fallback loop -/

/-- Whether fallback candidate `c` wins its iteration of the
`_try_fallback_providers` loop, and with which report: it must be registered,
its `test_connection()` must return `True` (not raise), and its
`generate_report` must return a dictionary. -/
def candReport (m : AIManager) (c : String) : Option Rep :=
  match m.providers.lookup c with
  | none => none
  | some pb =>
    match pb.testConn with
    | .ok true =>
      match pb.genReport with
      | .ok r => some r
      | .exn _ => none
    | _ => none

/-! ### Concrete fixtures used by the witnesses and examples -/

/-- Provider A of the fallback example: its connection test fails. -/
def bhA : ProviderBehavior :=
  { testConn := .ok false, genReport := .exn "not reached" }

/-- The report provider B returns. -/
def repB : Rep :=
  { summary := some "report from B" }

/-- Provider B of the fallback example: healthy. -/
def bhB : ProviderBehavior :=
  { testConn := .ok true, genReport := .ok repB }

/-- Provider C of the fallback example: healthy. -/
def bhC : ProviderBehavior :=
  { testConn := .ok true, genReport := .ok { summary := some "report from C" } }

/-- The fallback example manager: registry `{A (fails), B (healthy), C (healthy)}`
with fallback order `[A, B, C]`. -/
def mABC : AIManager :=
  { providers := [("A", bhA), ("B", bhB), ("C", bhC)],
    default_provider := "A", fallback_order := ["A", "B", "C"] }

/-- A failure dictionary returned (not raised) by a provider whose backend call
failed, as `OllamaProvider.generate_report` does. -/
def repFailP : Rep :=
  { success := false, error := some "backend call failed", provider := some "P" }

/-- A connected provider whose `generate_report` returns the failure value. -/
def bhP : ProviderBehavior :=
  { testConn := .ok true, genReport := .ok repFailP }

/-- A healthy provider that would serve as fallback for P. -/
def bhQ : ProviderBehavior :=
  { testConn := .ok true, genReport := .ok { summary := some "report from Q" } }

/-- Manager with P (returns failure values) ahead of Q in the fallback order. -/
def mPQ : AIManager :=
  { providers := [("P", bhP), ("Q", bhQ)],
    default_provider := "P", fallback_order := ["P", "Q"] }

/-- A failure dictionary returned by fallback candidate R. -/
def repFailR : Rep :=
  { success := false, error := some "R backend failed", provider := some "R" }

/-- A connected fallback candidate whose `generate_report` returns the failure
value. -/
def bhR : ProviderBehavior :=
  { testConn := .ok true, genReport := .ok repFailR }

/-- Manager whose fallback order names the unregistered X before R. -/
def mXR : AIManager :=
  { providers := [("R", bhR)],
    default_provider := "R", fallback_order := ["X", "R"] }

/-- A logbook entry with the given date and optional ratings; the free-text
fields are empty. -/
def mkEntry (dt : String) (mood prod : Option Nat) : LogEntry :=
  { date := dt, status := "", task_stack := "", todays_work := "",
    challenges := "", tomorrow_plan := "", mood_rating := mood,
    productivity_self_rating := prod }

/-- The C8 dataset: one intern, three entries, self-productivity ratings
`[4, 5, 3]` and mood ratings `[3, 4, 4]`. -/
def dsC8 : InternData :=
  { interns_data := some
      [("1", { intern_info := { name := "Alice", slt_id := "SLT1" },
               logbook_entries :=
                 [mkEntry "2025-01-03" (some 3) (some 4),
                  mkEntry "2025-01-02" (some 4) (some 5),
                  mkEntry "2025-01-01" (some 4) (some 3)] })] }

/-- A dataset whose middle entry lacks a self-productivity rating: the mean must
be taken over the two available ratings `[4, 5]` only. -/
def dsC8b : InternData :=
  { interns_data := some
      [("1", { intern_info := { name := "Bob", slt_id := "SLT2" },
               logbook_entries :=
                 [mkEntry "2025-01-03" none (some 4),
                  mkEntry "2025-01-02" none none,
                  mkEntry "2025-01-01" none (some 5)] })] }

/-- Eight logbook entries in the caller-guaranteed dataset order (the route
fetches them with `ORDER BY date DESC`): most recent first. -/
def d7entries : List LogEntry :=
  [mkEntry "2025-01-08" none none, mkEntry "2025-01-07" none none,
   mkEntry "2025-01-06" none none, mkEntry "2025-01-05" none none,
   mkEntry "2025-01-04" none none, mkEntry "2025-01-03" none none,
   mkEntry "2025-01-02" none none, mkEntry "2025-01-01" none none]

/-- The C7 dataset: one intern with the eight entries of `d7entries`. -/
def d7 : InternData :=
  { interns_data := some
      [("1", { intern_info := { name := "Cara", slt_id := "SLT3" },
               logbook_entries := d7entries })] }

/-- The raw text of the normalization example (C6). -/
def rawC6 : String :=
  "STRENGTHS\n- Delivered the API on time\n- Clear documentation\n\nRECOMMENDATIONS\n- Add more tests"

/-- An unstructured raw text with no recognizable section keyword (C5). -/
def garbageC5 : String :=
  "the quick brown fox jumps\n\nover the lazy dog tonight"

/-- All keyword families recognized by the section classifier. -/
def allSectionKeywords : List (List Char) :=
  kwSummary ++ kwStrengths ++ kwWeaknesses ++ kwRecommendations

/-- Intern info used by the C9 witness. -/
def infoW : InternInfo :=
  { name := "Dana", slt_id := "SLT4" }

/-- Seven logbook entries (a full week) used by the C9 witness. -/
def entries7 : List LogEntry :=
  [mkEntry "2025-01-07" none none, mkEntry "2025-01-06" none none,
   mkEntry "2025-01-05" none none, mkEntry "2025-01-04" none none,
   mkEntry "2025-01-03" none none, mkEntry "2025-01-02" none none,
   mkEntry "2025-01-01" none none]

/-- A single-subject dataset with the given entries, as used by C9. -/
def singleSubject (entries : List LogEntry) : InternData :=
  { interns_data := some [("1", { intern_info := infoW, logbook_entries := entries })] }

/-- A manager with only the zero-cost provider registered, used by the C10
witness (cost estimation ignores the provider behavior). -/
def mW : AIManager :=
  { providers := [("ollama", bhP)] }

/-- The empty dataset used by the C10 witness. -/
def dW : InternData := {}

/-! ## Theorems -/

/-- Helper: the `_try_fallback_providers` loop returns the tagged report of the
first candidate that wins its iteration, given that all earlier candidates lose
theirs. -/
theorem runCandidates_first_success (m : AIManager) (failed orig : String)
    (pre : List String) (c : String) (post : List String) (r : Rep)
    (hpre : ∀ p ∈ pre, candReport m p = none)
    (hc : candReport m c = some r) :
    (runCandidates m failed orig (pre ++ c :: post)).1 =
      some (tagFallback r c failed orig) := by
  induction pre with
  | nil =>
    rw [List.nil_append]
    rcases hl : m.providers.lookup c with _ | pb
    · simp [candReport, hl] at hc
    · rcases ht : pb.testConn with b | e
      · cases b
        · simp [candReport, hl, ht] at hc
        · rcases hg : pb.genReport with rep | e2
          · have hrr : rep = r := by simpa [candReport, hl, ht, hg] using hc
            subst hrr
            simp [runCandidates, hl, ht, hg]
          · simp [candReport, hl, ht, hg] at hc
      · simp [candReport, hl, ht] at hc
  | cons p pre ih =>
    have hp := hpre p (List.mem_cons_self p pre)
    have ih2 := ih (fun q hq => hpre q (List.mem_cons_of_mem p hq))
    rw [List.cons_append]
    rcases hl : m.providers.lookup p with _ | pb
    · simpa [runCandidates, hl] using ih2
    · rcases ht : pb.testConn with b | e
      · cases b
        · simpa [runCandidates, hl, ht] using ih2
        · rcases hg : pb.genReport with rep | e2
          · simp [candReport, hl, ht, hg] at hp
          · simpa [runCandidates, hl, ht, hg] using ih2
      · simpa [runCandidates, hl, ht] using ih2

/-- C1: for every dataset and report kind, when the requested provider fails and
fallback is allowed, the manager iterates the fixed fallback order, skipping the
requested provider and any unregistered name (`fallbackCandidates`), and the
first candidate that both passes `test_connection()` and successfully returns a
report wins, tagged with `fallback_used = True`, `original_provider` the
requested name and `original_error` the first failure message. -/
theorem generate_fallback_first_success (m : AIManager) (name e : String)
    (pre : List String) (c : String) (post : List String) (r : Rep)
    (hfail : primaryError m name = some e)
    (hsplit : fallbackCandidates m name = pre ++ c :: post)
    (hpre : ∀ p ∈ pre, candReport m p = none)
    (hc : candReport m c = some r) :
    generate_report m name true =
      { r with provider_used := some c, fallback_used := some true,
               original_provider := some name, original_error := some e } := by
  have hwin := runCandidates_first_success m name e pre c post r hpre hc
  rw [← hsplit] at hwin
  rcases hl : m.providers.lookup name with _ | pb
  · have he : "Provider " ++ name ++ " not found" = e := by
      simpa [primaryError, hl] using hfail
    subst he
    simp [generate_report, generate_reportT, hl, tryFallbackProvidersT, hwin, tagFallback]
  · rcases hpa : primaryAttempt pb name with ⟨pr, evs⟩
    cases pr with
    | ok rep => simp [primaryError, hl, hpa] at hfail
    | exn e2 =>
      have he : e2 = e := by simpa [primaryError, hl, hpa] using hfail
      subst he
      simp [generate_report, generate_reportT, hl, hpa, tryFallbackProvidersT, hwin, tagFallback]

/-- Witness for C1: the fallback example.  Registry `{A (fails), B (healthy),
C (healthy)}`, fallback order `[A, B, C]`: requesting A with fallback allowed
yields the report of B with `fallback_used = True`, `original_provider = "A"`
and `original_error` the message of the primary failure. -/
theorem generate_fallback_first_success_witness :
    primaryError mABC "A" = some "A is not available" ∧
    generate_report mABC "A" true =
      { repB with provider_used := some "B", fallback_used := some true,
                  original_provider := some "A",
                  original_error := some "A is not available" } :=
  ⟨by decide,
   generate_fallback_first_success mABC "A" "A is not available" [] "B" ["C"] repB
     (by decide) (by decide) (by simp) (by decide)⟩

/-- C2: a registered provider whose `generate_report` returns a value — be it a
`success: False` failure dictionary — without raising does not trigger the
fallback chain even when fallback is allowed: the manager tags that value with
`provider_used` and `fallback_used = False` and returns it, having touched no
other provider (the call trace is exactly one test and one generate call on the
requested provider).  And inside the fallback chain, the first candidate whose
`generate_report` returns any value without raising is tagged
`fallback_used = True` and wins, regardless of its `success` field. -/
theorem returned_failure_not_retried :
    (∀ (m : AIManager) (name : String) (pb : ProviderBehavior) (r : Rep) (fb : Bool),
      m.providers.lookup name = some pb → pb.testConn = PyResult.ok true →
      pb.genReport = PyResult.ok r →
      generate_reportT m name fb =
        ({ r with provider_used := some name, fallback_used := some false },
         [CallEv.test name, CallEv.gen name])) ∧
    (∀ (m : AIManager) (failed orig : String) (pre : List String) (c : String)
      (post : List String) (r : Rep),
      fallbackCandidates m failed = pre ++ c :: post →
      (∀ p ∈ pre, candReport m p = none) →
      candReport m c = some r →
      (tryFallbackProvidersT m failed orig).1 =
        { r with provider_used := some c, fallback_used := some true,
                 original_provider := some failed, original_error := some orig }) := by
  constructor
  · intro m name pb r fb hl ht hg
    simp [generate_reportT, primaryAttempt, hl, ht, hg]
  · intro m failed orig pre c post r hsplit hpre hc
    have hwin := runCandidates_first_success m failed orig pre c post r hpre hc
    rw [← hsplit] at hwin
    simp [tryFallbackProvidersT, hwin, tagFallback]

/-- Witness for C2: provider P is connected and returns a `success: False`
dictionary; the manager returns it tagged `fallback_used = False`, touching
only P, although fallback to the healthy Q was allowed.  And fallback candidate
R, returning a `success: False` dictionary, wins the chain. -/
theorem returned_failure_not_retried_witness :
    generate_reportT mPQ "P" true =
      ({ repFailP with provider_used := some "P", fallback_used := some false },
       [CallEv.test "P", CallEv.gen "P"]) ∧
    (tryFallbackProvidersT mXR "X" "original failure").1 =
      { repFailR with provider_used := some "R", fallback_used := some true,
                      original_provider := some "X",
                      original_error := some "original failure" } :=
  ⟨returned_failure_not_retried.1 mPQ "P" bhP repFailP true (by decide) (by decide)
     (by decide),
   returned_failure_not_retried.2 mXR "X" "original failure" [] "R" [] repFailR
     (by decide) (by simp) (by decide)⟩

/-- Helper: the primary attempt only ever calls the requested provider. -/
theorem primaryAttempt_events (pb : ProviderBehavior) (name : String) :
    ∀ ev ∈ (primaryAttempt pb name).2, ev.providerOf = name := by
  rcases htc : pb.testConn with b | e
  · cases b
    · simp [primaryAttempt, htc, CallEv.providerOf]
    · rcases hg : pb.genReport with r | e2 <;>
        simp [primaryAttempt, htc, hg, CallEv.providerOf]
  · simp [primaryAttempt, htc, CallEv.providerOf]

/-- C3: when fallback is disallowed and the requested provider fails
(unregistered name, failed connection test, or generation error — exactly the
cases where `primaryError` is `some`), the manager returns the failure
immediately (`success = False`, no fallback tag), and no other provider is
invoked: every call event of the request is on the requested provider. -/
theorem no_fallback_no_other_provider (m : AIManager) (name e : String)
    (hfail : primaryError m name = some e) :
    (generate_reportT m name false).1.success = false ∧
    (generate_reportT m name false).1.fallback_used = none ∧
    ∀ ev ∈ (generate_reportT m name false).2, ev.providerOf = name := by
  rcases hl : m.providers.lookup name with _ | pb
  · simp [generate_reportT, hl]
  · rcases hpa : primaryAttempt pb name with ⟨pr, evs⟩
    cases pr with
    | ok rep => simp [primaryError, hl, hpa] at hfail
    | exn e2 =>
      refine ⟨by simp [generate_reportT, hl, hpa], by simp [generate_reportT, hl, hpa], ?_⟩
      have hev := primaryAttempt_events pb name
      rw [hpa] at hev
      simpa [generate_reportT, hl, hpa] using hev

/-- Witness for C3: requesting the failing A with fallback disallowed returns a
failure without any fallback tag, and the only provider call made is the
connection test on A itself — B and C are never invoked. -/
theorem no_fallback_no_other_provider_witness :
    (generate_reportT mABC "A" false).1.success = false ∧
    (generate_reportT mABC "A" false).1.fallback_used = none ∧
    (generate_reportT mABC "A" false).2 = [CallEv.test "A"] :=
  ⟨(no_fallback_no_other_provider mABC "A" "A is not available" (by decide)).1,
   (no_fallback_no_other_provider mABC "A" "A is not available" (by decide)).2.1,
   by decide⟩

/-- Helper: every dictionary the OLLAMA pipeline can return carries
`success: False` (the success path is cut off by the `create_report_structure`
`TypeError`). -/
theorem ollama_generate_report_success_false (env : ProviderEnv) (d : InternData)
    (rt : String) : (ollama_generate_report env d rt).success = false := by
  unfold ollama_generate_report
  split
  · rfl
  · split
    · rfl
    · split
      · rfl
      · rfl

/-- Helper: as `ollama_generate_report_success_false`, for the OpenAI pipeline. -/
theorem openai_generate_report_success_false (env : ProviderEnv) (d : InternData)
    (rt : String) : (openai_generate_report env d rt).success = false := by
  unfold openai_generate_report
  split
  · rfl
  · split
    · rfl
    · split
      · rfl
      · rfl

/-- Helper: as `ollama_generate_report_success_false`, for the Claude pipeline. -/
theorem claude_generate_report_success_false (env : ProviderEnv) (d : InternData)
    (rt : String) : (claude_generate_report env d rt).success = false := by
  unfold claude_generate_report
  split
  · rfl
  · split
    · rfl
    · split
      · rfl
      · rfl

/-- Helper: inversion of a successful primary attempt. -/
theorem primaryAttempt_ok (pb : ProviderBehavior) (name : String) (r : Rep)
    (evs : List CallEv) (h : primaryAttempt pb name = (PyResult.ok r, evs)) :
    ∃ rep, pb.genReport = PyResult.ok rep ∧
      r = { rep with provider_used := some name, fallback_used := some false } := by
  rcases htc : pb.testConn with b | e
  · cases b
    · simp [primaryAttempt, htc] at h
    · rcases hg : pb.genReport with rep | e2
      · refine ⟨rep, rfl, ?_⟩
        simp [primaryAttempt, htc, hg] at h
        exact h.1.symm
      · simp [primaryAttempt, htc, hg] at h
  · simp [primaryAttempt, htc] at h

/-- Helper: any winner of the fallback loop inherits the `success` field of a
report returned by a registered provider. -/
theorem runCandidates_success_false (m : AIManager)
    (H : ∀ p pb r, m.providers.lookup p = some pb →
      pb.genReport = PyResult.ok r → r.success = false)
    (failed orig : String) :
    ∀ cands rep, (runCandidates m failed orig cands).1 = some rep →
      rep.success = false := by
  intro cands
  induction cands with
  | nil => intro rep h; simp [runCandidates] at h
  | cons c rest ih =>
    intro rep h
    rcases hl : m.providers.lookup c with _ | pb
    · exact ih rep (by simpa [runCandidates, hl] using h)
    · rcases htc : pb.testConn with b | e
      · cases b
        · exact ih rep (by simpa [runCandidates, htc, hl] using h)
        · rcases hg : pb.genReport with r | e2
          · have hr : tagFallback r c failed orig = rep := by
              simpa [runCandidates, htc, hl, hg] using h
            have := H c pb r hl hg
            rw [← hr]
            simpa [tagFallback] using this
          · exact ih rep (by simpa [runCandidates, htc, hl, hg] using h)
      · exact ih rep (by simpa [runCandidates, htc, hl] using h)

/-- Helper: when every registered provider returns only `success: False`
dictionaries, so does the manager, whatever the request. -/
theorem generate_report_success_false (m : AIManager)
    (H : ∀ p pb r, m.providers.lookup p = some pb →
      pb.genReport = PyResult.ok r → r.success = false)
    (name : String) (fb : Bool) :
    (generate_reportT m name fb).1.success = false := by
  rcases hl : m.providers.lookup name with _ | pb
  · cases fb
    · simp [generate_reportT, hl]
    · simp only [generate_reportT, hl, if_true]
      rcases hr : (runCandidates m name ("Provider " ++ name ++ " not found")
          (fallbackCandidates m name)).1 with _ | rep
      · simp [tryFallbackProvidersT, hr, allFailedRep]
      · have := runCandidates_success_false m H name
          ("Provider " ++ name ++ " not found") (fallbackCandidates m name) rep hr
        simpa [tryFallbackProvidersT, hr] using this
  · rcases hpa : primaryAttempt pb name with ⟨pr, evs⟩
    cases pr with
    | ok r =>
      obtain ⟨rep, hg, hr⟩ := primaryAttempt_ok pb name r evs hpa
      have := H name pb rep hl hg
      simp [generate_reportT, hl, hpa, hr, this]
    | exn e2 =>
      cases fb
      · simp [generate_reportT, hl, hpa]
      · simp only [generate_reportT, hl, hpa, if_true]
        rcases hr : (runCandidates m name e2 (fallbackCandidates m name)).1 with _ | rep
        · simp [tryFallbackProvidersT, hr, allFailedRep]
        · have := runCandidates_success_false m H name e2 (fallbackCandidates m name) rep hr
          simpa [tryFallbackProvidersT, hr] using this

/-- C4: for every well-formed dataset, provider name, report kind and fallback
flag, `AIManager.generate_report` over the real registry never raises — it is a
total function of the request and the network environments, every provider-level
exception being absorbed — and its result is either a report whose performance
score lies in [0, 100] or a failure value.  (On this code every run in fact ends
in the failure arm: the `create_report_structure` keyword mismatch makes every
provider pipeline return `success: False`.) -/
theorem generate_report_total_result_shape (ollamaEnv gptEnv claudeEnv : ProviderEnv)
    (d : InternData) (rt : String) (name : String) (fb : Bool) :
    (generate_reportT (realManager ollamaEnv gptEnv claudeEnv d rt) name fb).1.success = false ∨
    (∃ s, (generate_reportT (realManager ollamaEnv gptEnv claudeEnv d rt) name fb).1.performance_score
        = some s ∧ 0 ≤ s ∧ s ≤ 100) := by
  left
  apply generate_report_success_false
  intro p pb r hl hg
  simp only [realManager, providerBehaviorOf, List.lookup] at hl
  split at hl
  · obtain rfl := Option.some.inj hl
    obtain rfl := PyResult.ok.inj hg
    exact ollama_generate_report_success_false ollamaEnv d rt
  · split at hl
    · obtain rfl := Option.some.inj hl
      obtain rfl := PyResult.ok.inj hg
      exact openai_generate_report_success_false gptEnv d rt
    · split at hl
      · obtain rfl := Option.some.inj hl
        obtain rfl := PyResult.ok.inj hg
        exact claude_generate_report_success_false claudeEnv d rt
      · simp at hl

/-- C5 (refuting evaluation): `garbageC5` contains no recognizable section
keyword, yet `_parse_ollama_response` returns the canned placeholder lists of
the `except` branch — not empty lists — with the default score 75, because the
`try`-block always raises `AttributeError` at the undefined
`calculate_performance_score`.  The block itself (`ollamaTryBlockParse`), had it
completed, would have produced exactly the claimed shape: empty lists and a
non-empty summary taken from the raw text. -/
theorem unstructured_parse_returns_canned_items :
    (allSectionKeywords.all
      (fun k => !(subOccurs k (pyLowerChars garbageC5.data)))) = true ∧
    (_parse_ollama_response garbageC5 "weekly").strengths
      = ["Analysis completed successfully"] ∧
    (_parse_ollama_response garbageC5 "weekly").weaknesses
      = ["Further analysis may be needed"] ∧
    (_parse_ollama_response garbageC5 "weekly").recommendations
      = ["Continue current progress"] ∧
    (_parse_ollama_response garbageC5 "weekly").performance_score = 75 ∧
    (_parse_ollama_response garbageC5 "weekly").summary = garbageC5 ∧
    (ollamaTryBlockParse garbageC5).strengths = [] ∧
    (ollamaTryBlockParse garbageC5).weaknesses = [] ∧
    (ollamaTryBlockParse garbageC5).recommendations = [] ∧
    (ollamaTryBlockParse garbageC5).summary = "the quick brown fox jumps" := by
  refine ⟨by decide, by decide, by decide, by decide, ?_, by decide, by decide,
    by decide, by decide, by decide⟩
  norm_num [_parse_ollama_response]

/-- C6 (refuting evaluation): the example raw text is not normalized to the
claimed lists: `_parse_ollama_response` returns the canned placeholder lists of
the `except` branch (see C5).  Moreover even the `try`-block section scan, had
it completed, would extract `["RECOMMENDATIONS", "Add more tests"]` — the bare
15-character header echo passes the `> 10` length filter and misses every skip
marker (which all carry a colon) — though it does extract the two claimed
strengths and leaves weaknesses empty. -/
theorem normalize_example_mismatch :
    (_parse_ollama_response rawC6 "weekly").strengths
      = ["Analysis completed successfully"] ∧
    (_parse_ollama_response rawC6 "weekly").weaknesses
      = ["Further analysis may be needed"] ∧
    (_parse_ollama_response rawC6 "weekly").recommendations
      = ["Continue current progress"] ∧
    (ollamaTryBlockParse rawC6).strengths
      = ["Delivered the API on time", "Clear documentation"] ∧
    (ollamaTryBlockParse rawC6).weaknesses = [] ∧
    (ollamaTryBlockParse rawC6).recommendations
      = ["RECOMMENDATIONS", "Add more tests"] := by
  refine ⟨by decide, by decide, by decide, by decide, by decide, by decide⟩

set_option maxRecDepth 100000 in
/-- C7 (refuting evaluation): with the eight entries of `d7entries` in the
caller-guaranteed reverse-chronological dataset order (most recent,
`2025-01-08`, first), `entries[-7:]` keeps the last seven list elements — the
seven *oldest* entries: the oldest entry (`2025-01-01`) appears in the formatted
prompt while the most recent one (`2025-01-08`) is the one that is invisible,
the opposite of the claimed truncation. -/
theorem formatter_drops_most_recent_entry :
    lastSeven d7entries = d7entries.drop 1 ∧
    strHasSub (format_intern_data_for_ai d7) "Date: 2025-01-01" = true ∧
    strHasSub (format_intern_data_for_ai d7) "Date: 2025-01-08" = false := by
  refine ⟨by decide, by decide, by decide⟩

/-- C8: on the example dataset (one subject, three entries, self-productivity
ratings `[4, 5, 3]`, mood ratings `[3, 4, 4]`) the scorer returns
`overall_productivity = 4.0`, `consistency = round1(3/7*5) = 2.1` and
`engagement = round1(11/3) = 3.7`; productivity and engagement are means of the
available ratings only — on `dsC8b`, whose middle entry lacks a productivity
rating, the mean is over `[4, 5]` (giving `4.5`), not over three with a zero. -/
theorem performance_scores_example :
    (_calculate_performance_scores dsC8).overall_productivity = 4 ∧
    (_calculate_performance_scores dsC8).consistency = pyRound1 (3 / 7 * 5) ∧
    (_calculate_performance_scores dsC8).consistency = 21 / 10 ∧
    (_calculate_performance_scores dsC8).engagement = pyRound1 (11 / 3) ∧
    (_calculate_performance_scores dsC8).engagement = 37 / 10 ∧
    (_calculate_performance_scores dsC8b).overall_productivity = 9 / 2 := by
  norm_num [_calculate_performance_scores, dsC8, dsC8b, mkEntry, internSums,
    truthyRatings, ratingMean, optTruthyNat, pyRound1, roundHalfEven, min_def,
    List.foldl, List.filterMap]

/-- C9: for every single-subject dataset, zero logbook entries yield
`consistency = 0` and seven or more entries yield the maximum
`consistency = 5`, per `min(entryCount / 7 * 5, 5)` rounded to one decimal. -/
theorem consistency_boundary (entries : List LogEntry) :
    (entries.length = 0 →
      (_calculate_performance_scores (singleSubject entries)).consistency = 0) ∧
    (7 ≤ entries.length →
      (_calculate_performance_scores (singleSubject entries)).consistency = 5) := by
  constructor
  · intro h0
    obtain rfl := List.length_eq_zero.mp h0
    norm_num [_calculate_performance_scores, singleSubject, internSums,
      pyRound1, roundHalfEven, List.foldl]
  · intro h7
    have hne : entries.isEmpty = false := by
      cases entries with
      | nil => simp at h7
      | cons a l => rfl
    have hmin : min ((entries.length : ℚ) / 7 * 5) 5 = 5 := by
      apply min_eq_right
      have h : (7 : ℚ) ≤ (entries.length : ℚ) := by exact_mod_cast h7
      linarith
    simp only [_calculate_performance_scores, singleSubject, internSums,
      List.foldl, hne, hmin, Bool.false_eq_true, if_false, List.length_cons,
      List.length_nil]
    norm_num [pyRound1, roundHalfEven]

/-- Witness for C9: the boundary values at zero entries and at a full week of
seven entries. -/
theorem consistency_boundary_witness :
    (_calculate_performance_scores (singleSubject [])).consistency = 0 ∧
    (_calculate_performance_scores (singleSubject entries7)).consistency = 5 :=
  ⟨(consistency_boundary []).1 rfl, (consistency_boundary entries7).2 (by decide)⟩

/-- C10: for every dataset, estimating the cost of a report on the zero-cost
provider `"ollama"` (whenever it is registered) returns `is_free = True` and an
estimated cost of `0`, with input tokens approximated as `word count * 1.3` of
the formatted dataset and the fixed output-token estimate `500`. -/
theorem estimate_cost_ollama_free (m : AIManager) (d : InternData)
    (h : (m.providers.lookup "ollama").isSome = true) :
    estimate_report_cost m "ollama" d =
      Except.ok
        { provider := "ollama",
          estimated_input_tokens :=
            pyIntTrunc ((pyWordCount (format_intern_data_for_ai d) : ℚ) * (13 / 10)),
          estimated_output_tokens := 500,
          total_tokens :=
            pyIntTrunc ((pyWordCount (format_intern_data_for_ai d) : ℚ) * (13 / 10) + 500),
          estimated_cost_usd := 0,
          is_free := true } := by
  have hc : cost_per_1k_tokens "ollama" = 0 := rfl
  simp only [estimate_report_cost, h, if_true, hc, mul_zero]
  norm_num [pyRound4, roundHalfEven, pyIntTrunc]

/-- Witness for C10: on a registry containing `"ollama"` and the empty dataset,
the estimate is free with zero cost. -/
theorem estimate_cost_ollama_free_witness :
    (mW.providers.lookup "ollama").isSome = true ∧
    estimate_report_cost mW "ollama" dW =
      Except.ok
        { provider := "ollama",
          estimated_input_tokens :=
            pyIntTrunc ((pyWordCount (format_intern_data_for_ai dW) : ℚ) * (13 / 10)),
          estimated_output_tokens := 500,
          total_tokens :=
            pyIntTrunc ((pyWordCount (format_intern_data_for_ai dW) : ℚ) * (13 / 10) + 500),
          estimated_cost_usd := 0,
          is_free := true } :=
  ⟨by decide, estimate_cost_ollama_free mW dW (by decide)⟩

end AIProviders
